import Mathlib

/-!
# ID Verification — Decision Engine, Workflow and Review Queue: embedding and proofs

Shallow embedding of the decision/orchestration/review-queue code of the
IDVerification repository, together with theorems settling the frozen claims.

* `DecisionEngine` embeds `backend/lambdas/processing/decision-engine/handler.ts`
  and `shared/src/constants/thresholds.ts`.
* `Orchestration` embeds the Step Functions definition in
  `infrastructure/cdk/lib/stacks/orchestration-stack.ts`.
* `QueueForReview` embeds `backend/lambdas/processing/queue-for-review/handler.ts`.
* `GetReviewItem` embeds the auto-assign (claim) path of
  `backend/lambdas/review/get-review-item/handler.ts`, with an interleaving
  semantics for concurrent callers.
* `SubmitReviewDecision` embeds `backend/lambdas/review/submit-review-decision/handler.ts`.

Scores are rationals (the TypeScript numbers in play are decimal scores in
0–100); machine timestamps are integers (milliseconds); calendar dates are
explicit `(year, month, day)` triples matching JavaScript `getFullYear` /
`getMonth` (0-based) / `getDate`.  `description` strings of review reasons are
presentational interpolations of the fields already present in the model
(code, severity, related score) and are not modelled separately.
-/

namespace IDV

/-- Calendar date as JavaScript exposes it: `month` is 0-based (`getMonth`). -/
structure JsDate where
  year : Int
  month : Int
  day : Int
deriving DecidableEq, Repr

/-- Ambient clock of a Lambda invocation: the current calendar date (used by
`validateExtractedFields` through `new Date()`) and `Date.now()` in
milliseconds (used for the SLA deadline). -/
structure Clock where
  today : JsDate
  nowMs : Int
deriving DecidableEq, Repr

/-- Split a character list at dashes (the group structure of `YYYY-MM-DD`). -/
def splitDashes : List Char → List (List Char)
  | [] => [[]]
  | c :: rest =>
    if c = '-' then [] :: splitDashes rest
    else
      match splitDashes rest with
      | g :: gs => (c :: g) :: gs
      | [] => [[c]]

/-- Decimal value of a digit group. -/
def digitsVal (cs : List Char) : Nat :=
  cs.foldl (fun a c => a * 10 + (c.toNat - 48)) 0

/-- Restriction of JavaScript `new Date(string)` to ISO `YYYY-MM-DD` strings,
the format the document-extraction pipeline emits for `dateOfBirth`; any other
string is treated as an invalid date (`NaN` in the source). -/
def parseIsoDate (s : String) : Option JsDate :=
  match splitDashes s.toList with
  | [y, m, d] =>
    if y.length = 4 && m.length = 2 && d.length = 2
        && y.all Char.isDigit && m.all Char.isDigit && d.all Char.isDigit then
      let yn := digitsVal y
      let mn := digitsVal m
      let dn := digitsVal d
      if 1 ≤ mn && mn ≤ 12 && 1 ≤ dn && dn ≤ 31 then
        some ⟨(yn : Int), (mn : Int) - 1, (dn : Int)⟩
      else none
    else none
  | _ => none

/-- The age computation of `validateExtractedFields`:
`today.getFullYear() - dob.getFullYear()`, decremented when the month/day of
`today` has not yet reached the birthday. -/
def jsAge (today dob : JsDate) : Int :=
  let base := today.year - dob.year
  let monthDiff := today.month - dob.month
  if monthDiff < 0 ∨ (monthDiff = 0 ∧ today.day < dob.day) then base - 1 else base

/-- The regex `/^[A-Z0-9]{5,20}$/i` of `validateExtractedFields`. -/
def validDocumentNumber (s : String) : Bool :=
  5 ≤ s.length && s.length ≤ 20 && s.toList.all (fun c => c.isAlpha || c.isDigit)

/-- `Record<string, string>` field access with JavaScript truthiness for the
checks in the handler: a missing key and an empty string are both falsy. -/
def getField (fields : List (String × String)) (name : String) : String :=
  (fields.lookup name).getD ""

namespace DecisionEngine

/-! Constants from `shared/src/constants/thresholds.ts`. -/

namespace DECISION_THRESHOLDS

namespace SIMILARITY

def PASS : ℚ := 90

def REVIEW_MIN : ℚ := 70

def FAIL : ℚ := 70

end SIMILARITY

namespace OCR_CONFIDENCE

def PASS : ℚ := 85

def REVIEW_MIN : ℚ := 70

def FAIL : ℚ := 70

end OCR_CONFIDENCE

namespace IMAGE_QUALITY

def MIN_BRIGHTNESS : ℚ := 20

def MAX_BRIGHTNESS : ℚ := 240

def MIN_SHARPNESS : ℚ := 30

end IMAGE_QUALITY

end DECISION_THRESHOLDS

def HARD_FAIL_CONDITIONS : List String :=
  ["LIVENESS_FAILED", "DOCUMENT_EXPIRED", "SIMILARITY_BELOW_MINIMUM",
   "MAX_ATTEMPTS_EXCEEDED", "ABUSE_DETECTED", "INVALID_DOCUMENT_TYPE",
   "OCR_CONFIDENCE_TOO_LOW"]

def REVIEW_TRIGGERS : List String :=
  ["SIMILARITY_BORDERLINE", "OCR_CONFIDENCE_BORDERLINE", "IMAGE_QUALITY_ISSUES",
   "FIELD_MISMATCH", "MISSING_OPTIONAL_FIELDS", "MISSING_REQUIRED_FIELDS",
   "MULTIPLE_FACES_DETECTED", "DOCUMENT_DAMAGE_DETECTED", "GLARE_DETECTED",
   "FIELD_VALIDATION_ISSUES"]

def REQUIRED_DOCUMENT_FIELDS : List String :=
  ["firstName", "lastName", "dateOfBirth", "documentNumber", "expiryDate"]

/-! Input/output types of `decision-engine/handler.ts`. -/

structure ImageQuality where
  brightness : ℚ
  sharpness : ℚ
  hasGlare : Bool
  isPartiallyObscured : Bool
deriving DecidableEq, Repr

structure DocumentData where
  extractedFields : List (String × String)
  confidence : ℚ
  isExpired : Bool
  expiryDate : Option String
  facesDetected : Nat
  imageQuality : Option ImageQuality
deriving DecidableEq, Repr

structure LivenessResult where
  isLive : Bool
  confidence : ℚ
deriving DecidableEq, Repr

structure FaceComparisonResult where
  similarity : ℚ
deriving DecidableEq, Repr

structure DecisionInput where
  sessionId : String
  documentData : DocumentData
  livenessResult : LivenessResult
  faceComparison : FaceComparisonResult
deriving DecidableEq, Repr

inductive DecisionOutcome
  | PASS
  | FAIL
  | REVIEW
deriving DecidableEq, Repr

inductive ReviewSeverity
  | HIGH
  | MEDIUM
  | LOW
deriving DecidableEq, Repr

inductive ReviewPriority
  | HIGH
  | NORMAL
  | LOW
deriving DecidableEq, Repr

structure ReviewReason where
  code : String
  severity : ReviewSeverity
  relatedScore : Option ℚ
deriving DecidableEq, Repr

structure DecisionOutput where
  sessionId : String
  decision : DecisionOutcome
  reason : String
  reviewReasons : List ReviewReason
  priority : Option ReviewPriority
  slaDeadline : Option Int
deriving DecidableEq, Repr

/-- `createFailResult` of the handler (review reasons absent, no priority). -/
def createFailResult (sessionId reason : String) : DecisionOutput :=
  { sessionId := sessionId, decision := .FAIL, reason := reason,
    reviewReasons := [], priority := none, slaDeadline := none }

/-- `checkImageQuality` of the handler. -/
def checkImageQuality (quality : ImageQuality) : List String :=
  (if quality.brightness < DECISION_THRESHOLDS.IMAGE_QUALITY.MIN_BRIGHTNESS
    then ["too_dark"] else []) ++
  (if quality.brightness > DECISION_THRESHOLDS.IMAGE_QUALITY.MAX_BRIGHTNESS
    then ["too_bright"] else []) ++
  (if quality.sharpness < DECISION_THRESHOLDS.IMAGE_QUALITY.MIN_SHARPNESS
    then ["blurry"] else []) ++
  (if quality.hasGlare then ["glare_detected"] else []) ++
  (if quality.isPartiallyObscured then ["partially_obscured"] else [])

/-- `validateExtractedFields` of the handler: date-of-birth format/age checks
(using the ambient current date) and the document-number pattern check. -/
def validateExtractedFields (today : JsDate) (fields : List (String × String)) :
    List String :=
  (if getField fields "dateOfBirth" ≠ "" then
    match parseIsoDate (getField fields "dateOfBirth") with
    | none => ["invalid_dob_format"]
    | some dob => if jsAge today dob < 18 then ["under_18"] else []
   else []) ++
  (if getField fields "documentNumber" ≠ ""
      && !validDocumentNumber (getField fields "documentNumber")
    then ["suspicious_document_number"] else [])

/-- Review check 5: face similarity borderline. -/
def similarityReviewReasons (similarity : ℚ) : List ReviewReason :=
  if DECISION_THRESHOLDS.SIMILARITY.REVIEW_MIN ≤ similarity ∧
      similarity < DECISION_THRESHOLDS.SIMILARITY.PASS then
    [{ code := "SIMILARITY_BORDERLINE",
       severity := if similarity < 80 then .HIGH else .MEDIUM,
       relatedScore := some similarity }]
  else []

/-- Review check 6: OCR confidence borderline. -/
def ocrReviewReasons (confidence : ℚ) : List ReviewReason :=
  if DECISION_THRESHOLDS.OCR_CONFIDENCE.REVIEW_MIN ≤ confidence ∧
      confidence < DECISION_THRESHOLDS.OCR_CONFIDENCE.PASS then
    [{ code := "OCR_CONFIDENCE_BORDERLINE",
       severity := if confidence < 75 then .HIGH else .MEDIUM,
       relatedScore := some confidence }]
  else []

/-- Review check 7: image-quality issues; skipped entirely when the document
analysis returned no `imageQuality` object. -/
def imageQualityReasons (imageQuality : Option ImageQuality) : List ReviewReason :=
  match imageQuality with
  | none => []
  | some quality =>
    let qualityIssues := checkImageQuality quality
    if qualityIssues.length > 0 then
      [{ code := "IMAGE_QUALITY_ISSUES",
         severity := if qualityIssues.length > 2 then .HIGH else .MEDIUM,
         relatedScore := none }]
    else []

/-- Review check 8: missing required fields. -/
def missingFieldReasons (fields : List (String × String)) : List ReviewReason :=
  let missingRequired := REQUIRED_DOCUMENT_FIELDS.filter
    (fun f => getField fields f = "")
  if missingRequired.length > 0 then
    [{ code := "MISSING_REQUIRED_FIELDS", severity := .HIGH, relatedScore := none }]
  else []

/-- Review check 9: field-validation issues. -/
def fieldValidationReasons (today : JsDate) (fields : List (String × String)) :
    List ReviewReason :=
  let fieldValidationIssues := validateExtractedFields today fields
  if fieldValidationIssues.length > 0 then
    [{ code := "FIELD_VALIDATION_ISSUES", severity := .MEDIUM, relatedScore := none }]
  else []

/-- Review check 10: multiple faces in the document. -/
def multipleFacesReasons (facesDetected : Nat) : List ReviewReason :=
  if facesDetected > 1 then
    [{ code := "MULTIPLE_FACES_DETECTED", severity := .MEDIUM, relatedScore := none }]
  else []

/-- The accumulated review-reason list, in the push order of the handler. -/
def collectReviewReasons (today : JsDate) (documentData : DocumentData)
    (faceComparison : FaceComparisonResult) : List ReviewReason :=
  similarityReviewReasons faceComparison.similarity ++
  ocrReviewReasons documentData.confidence ++
  imageQualityReasons documentData.imageQuality ++
  missingFieldReasons documentData.extractedFields ++
  fieldValidationReasons today documentData.extractedFields ++
  multipleFacesReasons documentData.facesDetected

/-- `calculatePriority` of the handler. -/
def calculatePriority (reasons : List ReviewReason) : ReviewPriority :=
  if reasons.any (fun r => decide (r.severity = .HIGH)) then .HIGH
  else if 2 ≤ (reasons.filter (fun r => decide (r.severity = .MEDIUM))).length then .HIGH
  else if reasons.any (fun r => decide (r.severity = .MEDIUM)) then .NORMAL
  else .LOW

/-- The decision-engine `handler`: four ordered hard-fail gates, then the
accumulated review checks, then REVIEW (with priority and a 24h SLA deadline
computed from `Date.now()`) or PASS. -/
def handler (clk : Clock) (event : DecisionInput) : DecisionOutput :=
  if event.livenessResult.isLive = false then
    createFailResult event.sessionId "LIVENESS_FAILED"
  else if event.documentData.isExpired = true then
    createFailResult event.sessionId "DOCUMENT_EXPIRED"
  else if event.faceComparison.similarity < DECISION_THRESHOLDS.SIMILARITY.FAIL then
    createFailResult event.sessionId "SIMILARITY_BELOW_MINIMUM"
  else if event.documentData.confidence < DECISION_THRESHOLDS.OCR_CONFIDENCE.FAIL then
    createFailResult event.sessionId "OCR_CONFIDENCE_TOO_LOW"
  else
    let reviewReasons :=
      collectReviewReasons clk.today event.documentData event.faceComparison
    if reviewReasons.length > 0 then
      { sessionId := event.sessionId, decision := .REVIEW,
        reason := "MANUAL_REVIEW_REQUIRED", reviewReasons := reviewReasons,
        priority := some (calculatePriority reviewReasons),
        slaDeadline := some (clk.nowMs + 24 * 60 * 60 * 1000) }
    else
      { sessionId := event.sessionId, decision := .PASS,
        reason := "ALL_CHECKS_PASSED", reviewReasons := [],
        priority := none, slaDeadline := none }

/-- Codes carried by a decision, in order. -/
def reasonCodes (output : DecisionOutput) : List String :=
  output.reviewReasons.map (fun r => r.code)

end DecisionEngine

namespace Orchestration

open DecisionEngine

/-- The states of the Step Functions definition that invoke a Lambda or
create external effects. -/
inductive WorkflowStage
  | extractDocumentData
  | getLivenessResult
  | compareFaces
  | decisionEngine
  | queueForReview
  | finalizeVerification
  | auditLogger
deriving DecidableEq, Repr

structure WorkflowResult where
  decision : DecisionOutcome
  reason : String
  invoked : List WorkflowStage
  reviewItemCreated : Bool
deriving DecidableEq, Repr

/-- The verification state machine of `orchestration-stack.ts`: parallel
evidence gathering, the liveness gate (its failure branch runs
finalize + audit and ends at a terminal state, so nothing after the gate
executes), the expiry gate, then face comparison, the decision engine, and
routing by decision.  The evidence the two parallel branches and the
face-comparison task would produce is supplied up front in `event`;
`invoked` records which task states execute, in order. -/
def runVerificationWorkflow (clk : Clock) (event : DecisionInput) : WorkflowResult :=
  let parallelStages := [WorkflowStage.extractDocumentData, WorkflowStage.getLivenessResult]
  if event.livenessResult.isLive = false then
    { decision := .FAIL, reason := "LIVENESS_FAILED",
      invoked := parallelStages ++ [.finalizeVerification, .auditLogger],
      reviewItemCreated := false }
  else if event.documentData.isExpired = true then
    { decision := .FAIL, reason := "DOCUMENT_EXPIRED",
      invoked := parallelStages ++ [.finalizeVerification, .auditLogger],
      reviewItemCreated := false }
  else
    let decisionResult := DecisionEngine.handler clk event
    match decisionResult.decision with
    | .PASS =>
      { decision := .PASS, reason := decisionResult.reason,
        invoked := parallelStages ++
          [.compareFaces, .decisionEngine, .finalizeVerification, .auditLogger],
        reviewItemCreated := false }
    | .FAIL =>
      { decision := .FAIL, reason := decisionResult.reason,
        invoked := parallelStages ++
          [.compareFaces, .decisionEngine, .finalizeVerification, .auditLogger],
        reviewItemCreated := false }
    | .REVIEW =>
      { decision := .REVIEW, reason := decisionResult.reason,
        invoked := parallelStages ++
          [.compareFaces, .decisionEngine, .queueForReview, .auditLogger],
        reviewItemCreated := true }

end Orchestration

namespace QueueForReview

/-- Priorities of `queue-for-review/handler.ts` (lower-case, three-valued,
distinct from the decision engine's `ReviewPriority`). -/
inductive QueuePriority
  | high
  | medium
  | low
deriving DecidableEq, Repr

structure QueueScores where
  similarity : ℚ
  ocrConfidence : ℚ
  livenessConfidence : ℚ
deriving DecidableEq, Repr

structure QueueInput where
  sessionId : String
  reason : String
  scores : QueueScores
  qualityIssues : List String
deriving DecidableEq, Repr

structure QueueOutput where
  sessionId : String
  reviewId : String
  priority : QueuePriority
  queuedAt : String
deriving DecidableEq, Repr

/-- The review record the handler puts into the review table.  It mirrors the
`reviewItem` object literal of the source: note that it has `createdAt` and
`updatedAt` timestamps but no SLA-deadline attribute. -/
structure StoredReviewItem where
  reviewId : String
  sessionId : String
  status : String
  priority : QueuePriority
  reasons : List String
  createdAt : String
  updatedAt : String
  assignedTo : Option String
  assignedAt : Option String
  decision : Option String
  decisionNotes : Option String
  decidedAt : Option String
deriving DecidableEq, Repr

/-- `determinePriority` of `queue-for-review/handler.ts` (the second,
divergent priority computation; `ocrConfidence` is accepted but unused, as in
the source). -/
def determinePriority (similarity ocrConfidence : ℚ) (qualityIssues : List String) :
    QueuePriority :=
  if 85 ≤ similarity ∧ similarity < 90 then .high
  else if similarity < 75 then .high
  else if qualityIssues.length > 0 ∧ 80 ≤ similarity then .medium
  else .low

/-- The evident severity-preserving correspondence between the decision
engine's priority scale (HIGH/NORMAL/LOW) and this handler's scale
(high/medium/low). -/
def priorityAgrees : DecisionEngine.ReviewPriority → QueuePriority → Bool
  | .HIGH, .high => true
  | .NORMAL, .medium => true
  | .LOW, .low => true
  | _, _ => false

/-- DynamoDB `PutCommand` semantics on a table keyed by `reviewId`:
unconditional put, replacing any item with the same key. -/
def putItem (table : List StoredReviewItem) (item : StoredReviewItem) :
    List StoredReviewItem :=
  item :: table.filter (fun x => x.reviewId != item.reviewId)

/-- The `queue-for-review` handler: builds the review record, puts it
unconditionally, and returns the queue output.  `reviewId` stands for the
freshly generated `REV-<uuid>` identifier and `queuedAt` for
`new Date().toISOString()`.  There is no duplicate check and no failure path
other than the AWS SDK throwing. -/
def handler (reviewId queuedAt : String) (event : QueueInput)
    (table : List StoredReviewItem) : QueueOutput × List StoredReviewItem :=
  let priority :=
    determinePriority event.scores.similarity event.scores.ocrConfidence event.qualityIssues
  let reviewItem : StoredReviewItem :=
    { reviewId := reviewId, sessionId := event.sessionId, status := "pending",
      priority := priority,
      reasons := event.reason :: event.qualityIssues.map (fun q => "QUALITY: " ++ q),
      createdAt := queuedAt, updatedAt := queuedAt,
      assignedTo := none, assignedAt := none,
      decision := none, decisionNotes := none, decidedAt := none }
  ({ sessionId := event.sessionId, reviewId := reviewId, priority := priority,
     queuedAt := queuedAt },
   putItem table reviewItem)

end QueueForReview

namespace GetReviewItem

/-- The mutable part of a review record touched by the auto-assign path of
`get-review-item/handler.ts`. -/
structure ReviewItemState where
  status : String
  assignedTo : Option String
deriving DecidableEq, Repr

/-- What a caller of the handler observes: the HTTP status code, the
`assignedTo` value in the returned body, and whether this call's conditional
`UpdateCommand` succeeded (observable as the update not throwing). -/
structure ClaimResponse where
  statusCode : Nat
  assignedTo : Option String
  wroteAssignment : Bool
deriving DecidableEq, Repr

/-- A caller's progress: before the `GetCommand`, after it (holding the read
snapshot), or finished with a response. -/
inductive ClaimPhase
  | ready
  | gotItem (snapshot : ReviewItemState)
  | finished (response : ClaimResponse)
deriving DecidableEq, Repr

structure ClaimProc where
  reviewer : String
  phase : ClaimPhase
deriving DecidableEq, Repr

/-- The `UpdateCommand` with
`ConditionExpression: attribute_not_exists(assignedTo) OR assignedTo = :null`:
it assigns and moves the item to `in_progress` only when the item is
currently unassigned, else the write fails. -/
def condAssign (item : ReviewItemState) (reviewer : String) :
    Option ReviewItemState :=
  if item.assignedTo = none then
    some { status := "in_progress", assignedTo := some reviewer }
  else none

/-- One atomic step of a caller against the shared item.  A `ready` caller
performs the `GetCommand`.  A caller holding a snapshot finishes: if the
snapshot showed the item unassigned it attempts the conditional update —
success returns HTTP 200 with itself as assignee, a failed condition throws
`ConditionalCheckFailedException`, which the surrounding catch turns into
HTTP 500; if the snapshot showed an assignee, the handler skips the update
and returns HTTP 200 with the snapshot's assignee. -/
def procStep (item : ReviewItemState) (p : ClaimProc) : ReviewItemState × ClaimProc :=
  match p.phase with
  | .ready => (item, { p with phase := .gotItem item })
  | .gotItem snapshot =>
    if snapshot.assignedTo = none then
      match condAssign item p.reviewer with
      | some updated =>
        (updated, { p with phase := .finished ⟨200, some p.reviewer, true⟩ })
      | none =>
        (item, { p with phase := .finished ⟨500, none, false⟩ })
    else
      (item, { p with phase := .finished ⟨200, snapshot.assignedTo, false⟩ })
  | .finished _ => (item, p)

/-- `n` concurrent callers around one shared review item. -/
structure ClaimSystem (n : Nat) where
  item : ReviewItemState
  procs : Fin n → ClaimProc

def sysStep {n : Nat} (s : ClaimSystem n) (i : Fin n) : ClaimSystem n :=
  let r := procStep s.item (s.procs i)
  { item := r.1, procs := Function.update s.procs i r.2 }

/-- Execute an arbitrary interleaving (schedule) of the callers' atomic
steps; steps of finished callers are no-ops. -/
def runClaims {n : Nat} (s : ClaimSystem n) : List (Fin n) → ClaimSystem n
  | [] => s
  | i :: rest => runClaims (sysStep s i) rest

def initialSystem {n : Nat} (item : ReviewItemState) (reviewers : Fin n → String) :
    ClaimSystem n :=
  { item := item, procs := fun i => { reviewer := reviewers i, phase := .ready } }

def pendingUnassigned : ReviewItemState := { status := "pending", assignedTo := none }

def finishedProc (p : ClaimProc) : Bool :=
  match p.phase with
  | .finished _ => true
  | _ => false

def wroteProc (p : ClaimProc) : Bool :=
  match p.phase with
  | .finished r => r.wroteAssignment
  | _ => false

def responseOf (p : ClaimProc) : Option ClaimResponse :=
  match p.phase with
  | .finished r => some r
  | _ => none

/-- Inductive invariant of the claim race, relative to the initial item:
while unassigned the item is untouched and nobody has finished; once
assigned, the item is `in_progress`, exactly one caller's conditional write
succeeded and it wrote its own identity; snapshots are either the initial or
the current item; every response is HTTP 200 or HTTP 500. -/
def ClaimInv {n : Nat} (init : ReviewItemState) (s : ClaimSystem n) : Prop :=
  (s.item.assignedTo = none →
    s.item = init ∧
    ∀ i, (s.procs i).phase = .ready ∨ (s.procs i).phase = .gotItem init) ∧
  (∀ w, s.item.assignedTo = some w →
    s.item.status = "in_progress" ∧
    ∃ i, wroteProc (s.procs i) = true ∧ (s.procs i).reviewer = w ∧
      ∀ j, wroteProc (s.procs j) = true → j = i) ∧
  (∀ i snap, (s.procs i).phase = .gotItem snap → snap = init ∨ snap = s.item) ∧
  (∀ i r, (s.procs i).phase = .finished r → r.statusCode = 200 ∨ r.statusCode = 500)

end GetReviewItem

namespace SubmitReviewDecision

/-- The review record as `submit-review-decision/handler.ts` reads and
updates it. -/
structure ReviewRecord where
  reviewId : String
  sessionId : String
  status : String
  assignedTo : Option String
  decision : Option String
  decisionReason : Option String
  decisionNotes : Option String
  decidedBy : Option String
  decidedAt : Option String
deriving DecidableEq, Repr

structure ApiResponse where
  statusCode : Nat
  errorMessage : Option String
deriving DecidableEq, Repr

structure DecisionRequest where
  decision : String
  reason : Option String
  notes : Option String
deriving DecidableEq, Repr

/-- The `submit-review-decision` handler on one review record: body
validation, 404 on a missing record, the assignment guard (403), the
in-progress guard (400), then the completed update.  `reviewerEmail` is the
caller identity from the authorizer; `decidedAt` is
`new Date().toISOString()`.  The returned record is the table state after the
call (the guards return before any write). -/
def handler (reviewerEmail : String) (body : DecisionRequest)
    (record : Option ReviewRecord) (decidedAt : String) :
    ApiResponse × Option ReviewRecord :=
  if body.decision ≠ "approve" ∧ body.decision ≠ "reject" then
    (⟨400, some "Valid decision (approve/reject) is required"⟩, record)
  else if body.decision = "reject" ∧ body.reason = none then
    (⟨400, some "Rejection reason is required"⟩, record)
  else
    match record with
    | none => (⟨404, some "Review not found"⟩, none)
    | some review =>
      if review.assignedTo ≠ some reviewerEmail then
        (⟨403, some "You are not assigned to this review"⟩, some review)
      else if review.status ≠ "in_progress" then
        (⟨400, some ("Review is not in progress. Current status: " ++ review.status)⟩,
         some review)
      else
        let finalDecision := if body.decision = "approve" then "PASS" else "FAIL"
        let finalReason :=
          if body.decision = "approve" then some "MANUAL_APPROVAL" else body.reason
        (⟨200, none⟩,
         some { review with
           status := "completed", decision := some finalDecision,
           decisionReason := finalReason, decisionNotes := body.notes,
           decidedBy := some reviewerEmail, decidedAt := some decidedAt })

end SubmitReviewDecision

/-! Concrete inputs used by witnesses and counterexamples. -/

namespace Examples

open DecisionEngine

/-- A complete, valid set of extracted document fields. -/
def cleanFields : List (String × String) :=
  [("firstName", "JOHN"), ("lastName", "DOE"), ("dateOfBirth", "1990-06-15"),
   ("documentNumber", "AB1234567"), ("expiryDate", "2030-01-01")]

/-- A clean document: valid fields, high OCR confidence, not expired, one
face, no image-quality metrics returned. -/
def cleanDoc : DocumentData :=
  { extractedFields := cleanFields, confidence := 90, isExpired := false,
    expiryDate := some "2030-01-01", facesDetected := 1, imageQuality := none }

def clk0 : Clock := { today := ⟨2026, 9, 11⟩, nowMs := 1760000000000 }

/-- Scenario C of the spec: similarity 78, OCR confidence 90, liveness
passed, document valid. -/
def scenarioC : DecisionInput :=
  { sessionId := "session-c", documentData := cleanDoc,
    livenessResult := { isLive := true, confidence := 99 },
    faceComparison := { similarity := 78 } }

/-- A clean input whose document carries a date of birth in mid-June 2008,
otherwise PASS-worthy evidence. -/
def dobInput : DecisionInput :=
  { sessionId := "session-dob",
    documentData := { cleanDoc with
      extractedFields :=
        [("firstName", "JOHN"), ("lastName", "DOE"), ("dateOfBirth", "2008-06-15"),
         ("documentNumber", "AB1234567"), ("expiryDate", "2030-01-01")] },
    livenessResult := { isLive := true, confidence := 99 },
    faceComparison := { similarity := 95 } }

/-- The same clean input with no dateOfBirth field at all. -/
def noDobInput : DecisionInput :=
  { sessionId := "session-nodob",
    documentData := { cleanDoc with
      extractedFields :=
        [("firstName", "JOHN"), ("lastName", "DOE"),
         ("documentNumber", "AB1234567"), ("expiryDate", "2030-01-01")] },
    livenessResult := { isLive := true, confidence := 99 },
    faceComparison := { similarity := 95 } }

/-- Lambda invoked on 2026-06-10 (before the June-15 birthday). -/
def clkJune10 : Clock := { today := ⟨2026, 5, 10⟩, nowMs := 1781000000000 }

/-- Lambda invoked on 2026-06-20 (after the June-15 birthday). -/
def clkJune20 : Clock := { today := ⟨2026, 5, 20⟩, nowMs := 1781900000000 }

/-- An input that fails the liveness gate. -/
def failedLiveness : DecisionInput :=
  { sessionId := "session-liveness",
    documentData := cleanDoc,
    livenessResult := { isLive := false, confidence := 40 },
    faceComparison := { similarity := 95 } }

/-- A non-terminal (pending, unassigned) review item already stored for
session `session-dup`. -/
def oldReviewItem : QueueForReview.StoredReviewItem :=
  { reviewId := "REV-OLD", sessionId := "session-dup", status := "pending",
    priority := .low, reasons := ["MANUAL_REVIEW_REQUIRED"],
    createdAt := "2026-10-10T00:00:00Z", updatedAt := "2026-10-10T00:00:00Z",
    assignedTo := none, assignedAt := none,
    decision := none, decisionNotes := none, decidedAt := none }

/-- A queue-for-review input for the same session as `oldReviewItem`. -/
def dupQueueInput : QueueForReview.QueueInput :=
  { sessionId := "session-dup", reason := "MANUAL_REVIEW_REQUIRED",
    scores := { similarity := 78, ocrConfidence := 90, livenessConfidence := 99 },
    qualityIssues := [] }

/-- A review record in progress, assigned to alice. -/
def inProgressReview : SubmitReviewDecision.ReviewRecord :=
  { reviewId := "REV-1", sessionId := "session-r", status := "in_progress",
    assignedTo := some "alice@example.com",
    decision := none, decisionReason := none, decisionNotes := none,
    decidedBy := none, decidedAt := none }

/-- An approval request body. -/
def approveBody : SubmitReviewDecision.DecisionRequest :=
  { decision := "approve", reason := none, notes := none }

/-- Two distinct reviewers racing for the same item. -/
def twoReviewers : Fin 2 → String :=
  fun i => if i.val = 0 then "alice" else "bob"

/-- The race's initial state: a pending, unassigned review item and two
callers about to issue the get-review-item request. -/
def raceInit : GetReviewItem.ClaimSystem 2 :=
  GetReviewItem.initialSystem GetReviewItem.pendingUnassigned twoReviewers

end Examples

end IDV

/-! ## Theorems -/

namespace IDV

open DecisionEngine Examples

lemma mem_similarityReviewReasons {s : ℚ} {r : ReviewReason}
    (h : r ∈ similarityReviewReasons s) :
    r.code = "SIMILARITY_BORDERLINE" ∧ 70 ≤ s ∧ s < 90 := by
  unfold similarityReviewReasons DECISION_THRESHOLDS.SIMILARITY.REVIEW_MIN
    DECISION_THRESHOLDS.SIMILARITY.PASS at h
  split at h <;> simp_all

lemma mem_ocrReviewReasons {c : ℚ} {r : ReviewReason}
    (h : r ∈ ocrReviewReasons c) : r.code = "OCR_CONFIDENCE_BORDERLINE" := by
  unfold ocrReviewReasons at h
  split at h <;> simp_all

lemma mem_imageQualityReasons {oq : Option ImageQuality} {r : ReviewReason}
    (h : r ∈ imageQualityReasons oq) : r.code = "IMAGE_QUALITY_ISSUES" := by
  unfold imageQualityReasons at h
  cases oq with
  | none => simp_all
  | some q => split at h <;> simp_all

lemma mem_missingFieldReasons {fields : List (String × String)} {r : ReviewReason}
    (h : r ∈ missingFieldReasons fields) : r.code = "MISSING_REQUIRED_FIELDS" := by
  simp only [missingFieldReasons] at h
  split at h <;> simp_all

lemma mem_fieldValidationReasons {today : JsDate} {fields : List (String × String)}
    {r : ReviewReason} (h : r ∈ fieldValidationReasons today fields) :
    r.code = "FIELD_VALIDATION_ISSUES" := by
  simp only [fieldValidationReasons] at h
  split at h <;> simp_all

lemma mem_multipleFacesReasons {n : Nat} {r : ReviewReason}
    (h : r ∈ multipleFacesReasons n) : r.code = "MULTIPLE_FACES_DETECTED" := by
  unfold multipleFacesReasons at h
  split at h <;> simp_all

lemma mem_collectReviewReasons_cases {today : JsDate} {dd : DocumentData}
    {fc : FaceComparisonResult} {r : ReviewReason}
    (h : r ∈ collectReviewReasons today dd fc) :
    r ∈ similarityReviewReasons fc.similarity ∨
    r ∈ ocrReviewReasons dd.confidence ∨
    r ∈ imageQualityReasons dd.imageQuality ∨
    r ∈ missingFieldReasons dd.extractedFields ∨
    r ∈ fieldValidationReasons today dd.extractedFields ∨
    r ∈ multipleFacesReasons dd.facesDetected := by
  simpa [collectReviewReasons, List.mem_append, or_assoc] using h

lemma code_mem_collectReviewReasons {today : JsDate} {dd : DocumentData}
    {fc : FaceComparisonResult} {r : ReviewReason}
    (h : r ∈ collectReviewReasons today dd fc) :
    r.code ∈ REVIEW_TRIGGERS ∧ r.code ∉ HARD_FAIL_CONDITIONS := by
  rcases mem_collectReviewReasons_cases h with h | h | h | h | h | h
  · rw [(mem_similarityReviewReasons h).1]; decide
  · rw [mem_ocrReviewReasons h]; decide
  · rw [mem_imageQualityReasons h]; decide
  · rw [mem_missingFieldReasons h]; decide
  · rw [mem_fieldValidationReasons h]; decide
  · rw [mem_multipleFacesReasons h]; decide

lemma count_code_eq_zero {l : List ReviewReason} {c : String}
    (h : ∀ r ∈ l, r.code ≠ c) : (l.map (fun r => r.code)).count c = 0 := by
  rw [List.count_eq_zero]
  intro hmem
  obtain ⟨r, hr, hrc⟩ := List.mem_map.mp hmem
  exact h r hr hrc

lemma similarityReviewReasons_of_band {s : ℚ} (h70 : 70 ≤ s) (h90 : s < 90) :
    similarityReviewReasons s =
      [{ code := "SIMILARITY_BORDERLINE",
         severity := if s < 80 then .HIGH else .MEDIUM,
         relatedScore := some s }] := by
  unfold similarityReviewReasons DECISION_THRESHOLDS.SIMILARITY.REVIEW_MIN
    DECISION_THRESHOLDS.SIMILARITY.PASS
  exact if_pos ⟨h70, h90⟩

lemma count_similarity_code {today : JsDate} {dd : DocumentData}
    {fc : FaceComparisonResult} (h70 : 70 ≤ fc.similarity)
    (h90 : fc.similarity < 90) :
    ((collectReviewReasons today dd fc).map (fun r => r.code)).count
      "SIMILARITY_BORDERLINE" = 1 := by
  have hocr : ((ocrReviewReasons dd.confidence).map (fun r => r.code)).count
      "SIMILARITY_BORDERLINE" = 0 :=
    count_code_eq_zero (fun r hr => by rw [mem_ocrReviewReasons hr]; decide)
  have hiq : ((imageQualityReasons dd.imageQuality).map (fun r => r.code)).count
      "SIMILARITY_BORDERLINE" = 0 :=
    count_code_eq_zero (fun r hr => by rw [mem_imageQualityReasons hr]; decide)
  have hmiss : ((missingFieldReasons dd.extractedFields).map (fun r => r.code)).count
      "SIMILARITY_BORDERLINE" = 0 :=
    count_code_eq_zero (fun r hr => by rw [mem_missingFieldReasons hr]; decide)
  have hfv : ((fieldValidationReasons today dd.extractedFields).map
      (fun r => r.code)).count "SIMILARITY_BORDERLINE" = 0 :=
    count_code_eq_zero (fun r hr => by rw [mem_fieldValidationReasons hr]; decide)
  have hmf : ((multipleFacesReasons dd.facesDetected).map (fun r => r.code)).count
      "SIMILARITY_BORDERLINE" = 0 :=
    count_code_eq_zero (fun r hr => by rw [mem_multipleFacesReasons hr]; decide)
  unfold collectReviewReasons
  simp only [List.map_append, List.count_append]
  rw [similarityReviewReasons_of_band h70 h90, hocr, hiq, hmiss, hfv, hmf]
  simp

lemma validateExtractedFields_no_dob {fields : List (String × String)}
    (h : getField fields "dateOfBirth" = "") (t1 t2 : JsDate) :
    validateExtractedFields t1 fields = validateExtractedFields t2 fields := by
  unfold validateExtractedFields
  rw [h]
  simp

lemma collectReviewReasons_no_dob {dd : DocumentData} {fc : FaceComparisonResult}
    (h : getField dd.extractedFields "dateOfBirth" = "") (t1 t2 : JsDate) :
    collectReviewReasons t1 dd fc = collectReviewReasons t2 dd fc := by
  unfold collectReviewReasons fieldValidationReasons
  rw [validateExtractedFields_no_dob h t1 t2]

/-- C1, amended: the Decision Engine is deterministic only relative to the
ambient clock it reads; for a fixed input whose extracted fields carry no
(truthy) dateOfBirth, the outcome, review-reason set and priority are
independent of the clock (only the SLA deadline stamp varies). -/
theorem C1_determinism_amended (clk1 clk2 : Clock) (event : DecisionInput)
    (h : getField event.documentData.extractedFields "dateOfBirth" = "") :
    (handler clk1 event).decision = (handler clk2 event).decision ∧
    (handler clk1 event).reviewReasons = (handler clk2 event).reviewReasons ∧
    (handler clk1 event).priority = (handler clk2 event).priority := by
  have hc := @collectReviewReasons_no_dob event.documentData
    event.faceComparison h clk1.today clk2.today
  simp only [handler]
  rw [hc]
  split_ifs <;> simp

/-- C1, counterexample: the Decision Engine output is not independent of the
ambient clock.  For a clean input whose document carries dateOfBirth
2008-06-15, an invocation on 2026-06-10 takes the under-18 branch of
`validateExtractedFields` and returns REVIEW, while the same input on
2026-06-20 returns PASS, so outcome and reason set differ between the two
evaluations. -/
theorem C1_clock_counterexample :
    (handler clkJune10 dobInput).decision = .REVIEW ∧
    (handler clkJune20 dobInput).decision = .PASS ∧
    ¬((handler clkJune10 dobInput).decision = (handler clkJune20 dobInput).decision ∧
      (handler clkJune10 dobInput).reviewReasons =
        (handler clkJune20 dobInput).reviewReasons ∧
      (handler clkJune10 dobInput).priority = (handler clkJune20 dobInput).priority) := by
  decide

/-- C1, witness: the amended determinism theorem applied at a concrete input
without a dateOfBirth field and two different clocks. -/
theorem C1_witness :
    getField noDobInput.documentData.extractedFields "dateOfBirth" = "" ∧
    ((handler clkJune10 noDobInput).decision = (handler clkJune20 noDobInput).decision ∧
     (handler clkJune10 noDobInput).reviewReasons =
       (handler clkJune20 noDobInput).reviewReasons ∧
     (handler clkJune10 noDobInput).priority = (handler clkJune20 noDobInput).priority) :=
  ⟨by decide, C1_determinism_amended clkJune10 clkJune20 noDobInput (by decide)⟩

/-- C3: the three similarity bands partition the score space.  Under a
passing liveness gate and an unexpired document: a similarity of at least 90
triggers neither the similarity hard fail nor a SIMILARITY_BORDERLINE reason;
a similarity in [70, 90) (with OCR confidence clearing its own hard-fail
gate, so the review checks are reached) yields REVIEW carrying exactly one
SIMILARITY_BORDERLINE reason; a similarity below 70 yields
FAIL/SIMILARITY_BELOW_MINIMUM.  The boundaries 90 and 70 land in the PASS and
REVIEW bands respectively. -/
theorem C3_similarity_bands (clk : Clock) (event : DecisionInput)
    (hlive : event.livenessResult.isLive = true)
    (hexp : event.documentData.isExpired = false) :
    (90 ≤ event.faceComparison.similarity →
      (handler clk event).reason ≠ "SIMILARITY_BELOW_MINIMUM" ∧
      "SIMILARITY_BORDERLINE" ∉ reasonCodes (handler clk event)) ∧
    (70 ≤ event.faceComparison.similarity → event.faceComparison.similarity < 90 →
      70 ≤ event.documentData.confidence →
      (handler clk event).decision = .REVIEW ∧
      (reasonCodes (handler clk event)).count "SIMILARITY_BORDERLINE" = 1) ∧
    (event.faceComparison.similarity < 70 →
      (handler clk event).decision = .FAIL ∧
      (handler clk event).reason = "SIMILARITY_BELOW_MINIMUM") := by
  refine ⟨?_, ?_, ?_⟩
  · intro h90
    simp only [handler, reasonCodes]
    split_ifs with h1 h2 h3 h4 h5
    · exact absurd h1 (by simp [hlive])
    · exact absurd h2 (by simp [hexp])
    · exact absurd h3 (by unfold DECISION_THRESHOLDS.SIMILARITY.FAIL; linarith)
    · simp [createFailResult]
    · refine ⟨by simp, ?_⟩
      intro hmem
      obtain ⟨r, hr, hrc⟩ := List.mem_map.mp hmem
      have hrc2 : r.code = "SIMILARITY_BORDERLINE" := hrc
      rcases mem_collectReviewReasons_cases hr with hs | hs | hs | hs | hs | hs
      · exact absurd (mem_similarityReviewReasons hs).2.2 (by linarith)
      · rw [mem_ocrReviewReasons hs] at hrc2; exact absurd hrc2 (by decide)
      · rw [mem_imageQualityReasons hs] at hrc2; exact absurd hrc2 (by decide)
      · rw [mem_missingFieldReasons hs] at hrc2; exact absurd hrc2 (by decide)
      · rw [mem_fieldValidationReasons hs] at hrc2; exact absurd hrc2 (by decide)
      · rw [mem_multipleFacesReasons hs] at hrc2; exact absurd hrc2 (by decide)
    · simp [createFailResult]
  · intro h70 h90 hc70
    simp only [handler, reasonCodes]
    split_ifs with h1 h2 h3 h4 h5
    · exact absurd h1 (by simp [hlive])
    · exact absurd h2 (by simp [hexp])
    · exact absurd h3 (by unfold DECISION_THRESHOLDS.SIMILARITY.FAIL; linarith)
    · exact absurd h4 (by unfold DECISION_THRESHOLDS.OCR_CONFIDENCE.FAIL; linarith)
    · exact ⟨rfl, count_similarity_code h70 h90⟩
    · exfalso
      have hnil : collectReviewReasons clk.today event.documentData
          event.faceComparison = [] := by
        simpa [List.length_eq_zero] using h5
      have := @count_similarity_code clk.today event.documentData
        event.faceComparison h70 h90
      rw [hnil] at this
      simp at this
  · intro hlt
    simp only [handler, reasonCodes]
    split_ifs with h1 h2 h3 h4 h5
    · exact absurd h1 (by simp [hlive])
    · exact absurd h2 (by simp [hexp])
    · simp [createFailResult]
    · exact absurd hlt (by simpa [DECISION_THRESHOLDS.SIMILARITY.FAIL] using h3)
    · exact absurd hlt (by simpa [DECISION_THRESHOLDS.SIMILARITY.FAIL] using h3)
    · exact absurd hlt (by simpa [DECISION_THRESHOLDS.SIMILARITY.FAIL] using h3)

/-- C3, witness: the bands theorem applied to the concrete scenario-C input
(similarity 78, OCR confidence 90, liveness passed, not expired). -/
theorem C3_witness :
    scenarioC.livenessResult.isLive = true ∧
    scenarioC.documentData.isExpired = false ∧
    ((handler clk0 scenarioC).decision = .REVIEW ∧
     (reasonCodes (handler clk0 scenarioC)).count "SIMILARITY_BORDERLINE" = 1) :=
  ⟨rfl, rfl,
    (C3_similarity_bands clk0 scenarioC rfl rfl).2.1 (by decide) (by decide) (by decide)⟩

/-- C4: shape invariant of every decision.  FAIL carries a single hard-fail
reason code and an empty review-reason list; REVIEW carries a nonempty list
of reasons, all drawn from the review triggers and none of them hard-fail
codes; PASS carries no review reasons. -/
theorem C4_decision_invariant (clk : Clock) (event : DecisionInput) :
    ((handler clk event).decision = .FAIL →
      (handler clk event).reason ∈ HARD_FAIL_CONDITIONS ∧
      (handler clk event).reviewReasons = []) ∧
    ((handler clk event).decision = .REVIEW →
      (handler clk event).reviewReasons ≠ [] ∧
      ∀ r ∈ (handler clk event).reviewReasons,
        r.code ∈ REVIEW_TRIGGERS ∧ r.code ∉ HARD_FAIL_CONDITIONS) ∧
    ((handler clk event).decision = .PASS →
      (handler clk event).reviewReasons = []) := by
  simp only [handler]
  split_ifs with h1 h2 h3 h4 h5
  · exact ⟨fun _ => ⟨by simp [createFailResult, HARD_FAIL_CONDITIONS], rfl⟩,
      fun hc => by simp [createFailResult] at hc,
      fun hc => by simp [createFailResult] at hc⟩
  · exact ⟨fun _ => ⟨by simp [createFailResult, HARD_FAIL_CONDITIONS], rfl⟩,
      fun hc => by simp [createFailResult] at hc,
      fun hc => by simp [createFailResult] at hc⟩
  · exact ⟨fun _ => ⟨by simp [createFailResult, HARD_FAIL_CONDITIONS], rfl⟩,
      fun hc => by simp [createFailResult] at hc,
      fun hc => by simp [createFailResult] at hc⟩
  · exact ⟨fun _ => ⟨by simp [createFailResult, HARD_FAIL_CONDITIONS], rfl⟩,
      fun hc => by simp [createFailResult] at hc,
      fun hc => by simp [createFailResult] at hc⟩
  · refine ⟨fun hc => by simp at hc, fun _ => ⟨?_, ?_⟩, fun hc => by simp at hc⟩
    · exact List.length_pos.mp h5
    · exact fun r hr => code_mem_collectReviewReasons hr
  · exact ⟨fun hc => by simp at hc, fun hc => by simp at hc, fun _ => rfl⟩

/-- C4, witness: the invariant applied to a concrete liveness-failed input,
whose decision is FAIL. -/
theorem C4_witness :
    (handler clk0 failedLiveness).reason ∈ HARD_FAIL_CONDITIONS ∧
    (handler clk0 failedLiveness).reviewReasons = [] :=
  (C4_decision_invariant clk0 failedLiveness).1 (by decide)

/-- C5, counterexample: for the scenario-C input (similarity 78, OCR
confidence 90, liveness passed, not expired, clean fields) the code assigns
SIMILARITY_BORDERLINE severity HIGH (because 78 < 80) and hence priority
HIGH — not severity MEDIUM and priority NORMAL as the claim states. -/
theorem C5_counterexample :
    (handler clk0 scenarioC).reviewReasons.map (fun r => r.severity) = [.HIGH] ∧
    (handler clk0 scenarioC).priority = some .HIGH ∧
    ¬((handler clk0 scenarioC).reviewReasons.map (fun r => r.severity) = [.MEDIUM] ∧
      (handler clk0 scenarioC).priority = some .NORMAL) := by
  decide

/-- C5, amended: the scenario-C input yields REVIEW with the single reason
SIMILARITY_BORDERLINE at severity HIGH and priority HIGH. -/
theorem C5_amended_theorem :
    (handler clk0 scenarioC).decision = .REVIEW ∧
    reasonCodes (handler clk0 scenarioC) = ["SIMILARITY_BORDERLINE"] ∧
    (handler clk0 scenarioC).reviewReasons.map (fun r => r.severity) = [.HIGH] ∧
    (handler clk0 scenarioC).priority = some .HIGH := by
  decide

/-- C9: the two priority computations diverge.  On the scenario-C evidence
(similarity 78, OCR 90, no quality issues) the Decision Engine's
`calculatePriority` yields HIGH while the queueing handler's
`determinePriority` yields low, which do not correspond under the evident
mapping of the two scales. -/
theorem C9_priority_divergence :
    calculatePriority (collectReviewReasons clk0.today scenarioC.documentData
      scenarioC.faceComparison) = .HIGH ∧
    QueueForReview.determinePriority 78 90 [] = .low ∧
    QueueForReview.priorityAgrees
      (calculatePriority (collectReviewReasons clk0.today scenarioC.documentData
        scenarioC.faceComparison))
      (QueueForReview.determinePriority 78 90 []) = false := by
  decide

/-- C10: when the document analysis returned no imageQuality object, the
image-quality checks are skipped entirely — no decision ever carries an
IMAGE_QUALITY_ISSUES reason. -/
theorem C10_image_quality_skipped (clk : Clock) (event : DecisionInput)
    (h : event.documentData.imageQuality = none) :
    "IMAGE_QUALITY_ISSUES" ∉ reasonCodes (handler clk event) := by
  intro hmem
  simp only [handler, reasonCodes] at hmem
  split_ifs at hmem
  · simp [createFailResult] at hmem
  · simp [createFailResult] at hmem
  · simp [createFailResult] at hmem
  · simp [createFailResult] at hmem
  · obtain ⟨r, hr, hrc⟩ := List.mem_map.mp hmem
    have hrc2 : r.code = "IMAGE_QUALITY_ISSUES" := hrc
    rcases mem_collectReviewReasons_cases hr with hs | hs | hs | hs | hs | hs
    · rw [(mem_similarityReviewReasons hs).1] at hrc2; exact absurd hrc2 (by decide)
    · rw [mem_ocrReviewReasons hs] at hrc2; exact absurd hrc2 (by decide)
    · rw [h] at hs; simp [imageQualityReasons] at hs
    · rw [mem_missingFieldReasons hs] at hrc2; exact absurd hrc2 (by decide)
    · rw [mem_fieldValidationReasons hs] at hrc2; exact absurd hrc2 (by decide)
    · rw [mem_multipleFacesReasons hs] at hrc2; exact absurd hrc2 (by decide)
  · simp at hmem

/-- C10, witness: the skip theorem applied to the scenario-C input, whose
document has no image-quality metrics. -/
theorem C10_witness :
    scenarioC.documentData.imageQuality = none ∧
    "IMAGE_QUALITY_ISSUES" ∉ reasonCodes (handler clk0 scenarioC) :=
  ⟨rfl, C10_image_quality_skipped clk0 scenarioC rfl⟩

/-- C6: in every workflow execution where liveness fails, the state machine
terminates at the liveness gate with FAIL/LIVENESS_FAILED; the face-compare
task, the decision-engine task and review-item creation are never invoked. -/
theorem C6_liveness_gate_terminal (clk : Clock) (event : DecisionInput)
    (h : event.livenessResult.isLive = false) :
    (Orchestration.runVerificationWorkflow clk event).decision = .FAIL ∧
    (Orchestration.runVerificationWorkflow clk event).reason = "LIVENESS_FAILED" ∧
    Orchestration.WorkflowStage.compareFaces ∉
      (Orchestration.runVerificationWorkflow clk event).invoked ∧
    Orchestration.WorkflowStage.decisionEngine ∉
      (Orchestration.runVerificationWorkflow clk event).invoked ∧
    Orchestration.WorkflowStage.queueForReview ∉
      (Orchestration.runVerificationWorkflow clk event).invoked ∧
    (Orchestration.runVerificationWorkflow clk event).reviewItemCreated = false := by
  simp [Orchestration.runVerificationWorkflow, h]

/-- C6, witness: the gate theorem applied to a concrete liveness-failed
execution. -/
theorem C6_witness :
    failedLiveness.livenessResult.isLive = false ∧
    ((Orchestration.runVerificationWorkflow clk0 failedLiveness).decision = .FAIL ∧
     (Orchestration.runVerificationWorkflow clk0 failedLiveness).reason = "LIVENESS_FAILED" ∧
     Orchestration.WorkflowStage.compareFaces ∉
       (Orchestration.runVerificationWorkflow clk0 failedLiveness).invoked ∧
     Orchestration.WorkflowStage.decisionEngine ∉
       (Orchestration.runVerificationWorkflow clk0 failedLiveness).invoked ∧
     Orchestration.WorkflowStage.queueForReview ∉
       (Orchestration.runVerificationWorkflow clk0 failedLiveness).invoked ∧
     (Orchestration.runVerificationWorkflow clk0 failedLiveness).reviewItemCreated = false) :=
  ⟨rfl, C6_liveness_gate_terminal clk0 failedLiveness rfl⟩

/-- C7, counterexample: the queue-for-review handler does not fail with a
DuplicateError when a non-terminal item already exists for the session — it
performs an unconditional put and succeeds, after which the table holds two
items for the session; and the created item carries no SLA deadline (the
stored record has only createdAt/updatedAt timestamps). -/
theorem C7_counterexample :
    Examples.oldReviewItem.status = "pending" ∧
    Examples.oldReviewItem.sessionId = Examples.dupQueueInput.sessionId ∧
    (QueueForReview.handler "REV-NEW" "2026-10-11T00:00:00Z" Examples.dupQueueInput
      [Examples.oldReviewItem]).1.reviewId = "REV-NEW" ∧
    Examples.oldReviewItem ∈
      (QueueForReview.handler "REV-NEW" "2026-10-11T00:00:00Z" Examples.dupQueueInput
        [Examples.oldReviewItem]).2 ∧
    ((QueueForReview.handler "REV-NEW" "2026-10-11T00:00:00Z" Examples.dupQueueInput
        [Examples.oldReviewItem]).2.filter
      (fun x => x.sessionId == "session-dup")).length = 2 := by
  decide

/-- C7, amended: enqueue creates the review item in status pending with
creation timestamps (but no SLA-deadline attribute) and always succeeds: a
pre-existing non-terminal item for the same session is left in place
alongside the new one, with no DuplicateError. -/
theorem C7_enqueue_amended (reviewId queuedAt : String)
    (event : QueueForReview.QueueInput) (table : List QueueForReview.StoredReviewItem) :
    (∃ item ∈ (QueueForReview.handler reviewId queuedAt event table).2,
      item.reviewId = reviewId ∧ item.sessionId = event.sessionId ∧
      item.status = "pending" ∧ item.createdAt = queuedAt) ∧
    (QueueForReview.handler reviewId queuedAt event table).1.reviewId = reviewId ∧
    ∀ old ∈ table, old.reviewId ≠ reviewId →
      old ∈ (QueueForReview.handler reviewId queuedAt event table).2 := by
  refine ⟨⟨_, List.mem_cons_self _ _, rfl, rfl, rfl, rfl⟩, rfl, ?_⟩
  intro old hold hne
  simp only [QueueForReview.handler, QueueForReview.putItem]
  exact List.mem_cons_of_mem _
    (List.mem_filter.mpr ⟨hold, by simpa [bne_iff_ne] using hne⟩)

/-- C7, witness: the amended enqueue theorem applied to the concrete
duplicate-session table. -/
theorem C7_witness :
    Examples.oldReviewItem.reviewId ≠ "REV-NEW" ∧
    Examples.oldReviewItem ∈
      (QueueForReview.handler "REV-NEW" "2026-10-11T00:00:00Z" Examples.dupQueueInput
        [Examples.oldReviewItem]).2 :=
  ⟨by decide,
   (C7_enqueue_amended "REV-NEW" "2026-10-11T00:00:00Z" Examples.dupQueueInput
      [Examples.oldReviewItem]).2.2 Examples.oldReviewItem
     (List.mem_cons_self _ _) (by decide)⟩

/-- C8: the ordered guards of the submit-review-decision handler.  A caller
who is not the assignee gets the NotAssigned error (HTTP 403) and the record
is unchanged; the assignee on a non-in-progress record gets the InvalidState
error (HTTP 400) and the record is unchanged; the assignee on an in-progress
record completes it, writing the decision payload, and afterwards every
further call — any caller, any body, any time — fails (403 or 400, the
completed record now failing the in-progress guard) and leaves the stored
decision unchanged. -/
theorem C8_submit_decision (reviewer : String)
    (body : SubmitReviewDecision.DecisionRequest)
    (review : SubmitReviewDecision.ReviewRecord) (t : String)
    (hval : body.decision = "approve" ∨
      (body.decision = "reject" ∧ body.reason ≠ none)) :
    (review.assignedTo ≠ some reviewer →
      SubmitReviewDecision.handler reviewer body (some review) t =
        (⟨403, some "You are not assigned to this review"⟩, some review)) ∧
    (review.assignedTo = some reviewer → review.status ≠ "in_progress" →
      SubmitReviewDecision.handler reviewer body (some review) t =
        (⟨400, some ("Review is not in progress. Current status: " ++ review.status)⟩,
         some review)) ∧
    (review.assignedTo = some reviewer → review.status = "in_progress" →
      ∃ updated,
        SubmitReviewDecision.handler reviewer body (some review) t =
          (⟨200, none⟩, some updated) ∧
        updated.status = "completed" ∧
        updated.decision = some (if body.decision = "approve" then "PASS" else "FAIL") ∧
        updated.decidedBy = some reviewer ∧
        updated.assignedTo = some reviewer ∧
        ∀ reviewer2 body2 t2,
          ((SubmitReviewDecision.handler reviewer2 body2 (some updated) t2).1.statusCode = 403 ∨
           (SubmitReviewDecision.handler reviewer2 body2 (some updated) t2).1.statusCode = 400) ∧
          (SubmitReviewDecision.handler reviewer2 body2 (some updated) t2).2 = some updated) := by
  have hbody : ¬(body.decision ≠ "approve" ∧ body.decision ≠ "reject") := by
    rcases hval with h | ⟨h, -⟩ <;> simp [h]
  have hreject : ¬(body.decision = "reject" ∧ body.reason = none) := by
    rcases hval with h | ⟨h, hr⟩
    · intro hc
      rw [h] at hc
      exact absurd hc.1 (by decide)
    · intro hc
      exact hr hc.2
  refine ⟨?_, ?_, ?_⟩
  · intro hna
    simp only [SubmitReviewDecision.handler, if_neg hbody, if_neg hreject, if_pos hna]
  · intro ha hs
    simp only [SubmitReviewDecision.handler, if_neg hbody, if_neg hreject]
    rw [if_neg (by simp [ha]), if_pos hs]
  · intro ha hs
    refine ⟨{ review with
        status := "completed",
        decision := some (if body.decision = "approve" then "PASS" else "FAIL"),
        decisionReason :=
          if body.decision = "approve" then some "MANUAL_APPROVAL" else body.reason,
        decisionNotes := body.notes,
        decidedBy := some reviewer,
        decidedAt := some t }, ?_, rfl, rfl, rfl, ?_, ?_⟩
    · simp only [SubmitReviewDecision.handler, if_neg hbody, if_neg hreject]
      rw [if_neg (by simp [ha]), if_neg (by simp [hs])]
    · exact ha
    · intro reviewer2 body2 t2
      simp only [SubmitReviewDecision.handler]
      split_ifs <;> simp_all

/-- C8, witness: a non-assigned caller on the in-progress record receives the
NotAssigned error and the record is unchanged. -/
theorem C8_witness :
    SubmitReviewDecision.handler "bob@example.com" Examples.approveBody
      (some Examples.inProgressReview) "2026-10-11T01:00:00Z" =
    (⟨403, some "You are not assigned to this review"⟩,
     some Examples.inProgressReview) :=
  (C8_submit_decision "bob@example.com" Examples.approveBody Examples.inProgressReview
    "2026-10-11T01:00:00Z" (Or.inl rfl)).1 (by decide)

section ClaimRace

open GetReviewItem

lemma responseOf_some {p : ClaimProc} {r : ClaimResponse}
    (h : responseOf p = some r) : p.phase = .finished r := by
  rcases hp : p.phase with _ | snap | resp
  · simp [responseOf, hp] at h
  · simp [responseOf, hp] at h
  · simp only [responseOf, hp, Option.some.injEq] at h
    rw [h]

lemma claimInv_init {n : Nat} (init : ReviewItemState) (reviewers : Fin n → String)
    (h : init.assignedTo = none) :
    ClaimInv init (initialSystem init reviewers) := by
  refine ⟨fun _ => ⟨rfl, fun i => Or.inl rfl⟩, ?_, ?_, ?_⟩
  · intro w hw
    rw [show (initialSystem init reviewers).item = init from rfl, h] at hw
    cases hw
  · intro i snap hsnap
    simp [initialSystem] at hsnap
  · intro i r hr
    simp [initialSystem] at hr

lemma claimInv_step {n : Nat} {init : ReviewItemState} (hinit : init.assignedTo = none)
    {s : ClaimSystem n} (hs : ClaimInv init s) (i : Fin n) :
    ClaimInv init (sysStep s i) := by
  obtain ⟨hFree, hAssigned, hSnap, hResp⟩ := hs
  rcases hphase : (s.procs i).phase with _ | snap | resp
  · -- the caller performs the GetCommand
    have hstep : sysStep s i =
        { item := s.item,
          procs := Function.update s.procs i
            ⟨(s.procs i).reviewer, .gotItem s.item⟩ } := by
      simp [sysStep, procStep, hphase]
    rw [hstep]
    dsimp only [ClaimInv]
    refine ⟨?_, ?_, ?_, ?_⟩
    · intro hnone
      obtain ⟨hii, hall⟩ := hFree hnone
      refine ⟨hii, fun j => ?_⟩
      by_cases hj : j = i
      · subst hj; rw [Function.update_same]; exact Or.inr (by rw [hii])
      · rw [Function.update_noteq hj]; exact hall j
    · intro w hw
      obtain ⟨hst, i0, hw0, hrev0, huniq⟩ := hAssigned w hw
      have hi0ne : i0 ≠ i := by
        intro hEq; rw [hEq] at hw0; simp [wroteProc, hphase] at hw0
      refine ⟨hst, i0, by rw [Function.update_noteq hi0ne]; exact hw0,
        by rw [Function.update_noteq hi0ne]; exact hrev0, ?_⟩
      intro j hj
      by_cases hji : j = i
      · subst hji; rw [Function.update_same] at hj; simp [wroteProc] at hj
      · rw [Function.update_noteq hji] at hj; exact huniq j hj
    · intro j snap2 hj
      by_cases hji : j = i
      · subst hji; rw [Function.update_same] at hj
        simp at hj
        subst hj
        exact Or.inr rfl
      · rw [Function.update_noteq hji] at hj; exact hSnap j snap2 hj
    · intro j r hj
      by_cases hji : j = i
      · subst hji; rw [Function.update_same] at hj; simp at hj
      · rw [Function.update_noteq hji] at hj; exact hResp j r hj
  · -- the caller acts on its snapshot
    by_cases hsa : snap.assignedTo = none
    · rcases hiopt : s.item.assignedTo with _ | w0
      · -- the conditional write succeeds: the caller wins the race
        have hstep : sysStep s i =
            { item := ⟨"in_progress", some (s.procs i).reviewer⟩,
              procs := Function.update s.procs i
                ⟨(s.procs i).reviewer,
                  .finished ⟨200, some (s.procs i).reviewer, true⟩⟩ } := by
          simp [sysStep, procStep, hphase, hsa, condAssign, hiopt]
        obtain ⟨hii, hall⟩ := hFree hiopt
        rw [hstep]
        dsimp only [ClaimInv]
        refine ⟨?_, ?_, ?_, ?_⟩
        · intro hnone; simp at hnone
        · intro w hw
          have hwrev : w = (s.procs i).reviewer := by
            simpa using hw.symm
          refine ⟨rfl, i, by rw [Function.update_same]; rfl, ?_, ?_⟩
          · rw [Function.update_same, hwrev]
          · intro j hj
            by_cases hji : j = i
            · exact hji
            · rw [Function.update_noteq hji] at hj
              rcases hall j with hr | hg
              · simp [wroteProc, hr] at hj
              · simp [wroteProc, hg] at hj
        · intro j snap2 hj
          by_cases hji : j = i
          · subst hji; rw [Function.update_same] at hj; simp at hj
          · rw [Function.update_noteq hji] at hj
            rcases hall j with hr | hg
            · rw [hr] at hj; cases hj
            · rw [hg] at hj
              simp at hj
              subst hj
              exact Or.inl rfl
        · intro j r hj
          by_cases hji : j = i
          · subst hji; rw [Function.update_same] at hj
            simp at hj
            subst hj
            left; rfl
          · rw [Function.update_noteq hji] at hj; exact hResp j r hj
      · -- the conditional write fails: ConditionalCheckFailed, HTTP 500
        have hstep : sysStep s i =
            { item := s.item,
              procs := Function.update s.procs i
                ⟨(s.procs i).reviewer, .finished ⟨500, none, false⟩⟩ } := by
          simp [sysStep, procStep, hphase, hsa, condAssign, hiopt]
        rw [hstep]
        dsimp only [ClaimInv]
        refine ⟨?_, ?_, ?_, ?_⟩
        · intro hnone; rw [hiopt] at hnone; cases hnone
        · intro w hw
          obtain ⟨hst, i0, hw0, hrev0, huniq⟩ := hAssigned w hw
          have hi0ne : i0 ≠ i := by
            intro hEq; rw [hEq] at hw0; simp [wroteProc, hphase] at hw0
          refine ⟨hst, i0, by rw [Function.update_noteq hi0ne]; exact hw0,
            by rw [Function.update_noteq hi0ne]; exact hrev0, ?_⟩
          intro j hj
          by_cases hji : j = i
          · subst hji; rw [Function.update_same] at hj; simp [wroteProc] at hj
          · rw [Function.update_noteq hji] at hj; exact huniq j hj
        · intro j snap2 hj
          by_cases hji : j = i
          · subst hji; rw [Function.update_same] at hj; simp at hj
          · rw [Function.update_noteq hji] at hj; exact hSnap j snap2 hj
        · intro j r hj
          by_cases hji : j = i
          · subst hji; rw [Function.update_same] at hj
            simp at hj
            subst hj
            right; rfl
          · rw [Function.update_noteq hji] at hj; exact hResp j r hj
    · -- the snapshot already shows an assignee: HTTP 200, no write
      have hstep : sysStep s i =
          { item := s.item,
            procs := Function.update s.procs i
              ⟨(s.procs i).reviewer, .finished ⟨200, snap.assignedTo, false⟩⟩ } := by
        simp [sysStep, procStep, hphase, hsa]
      have hitem_assigned : s.item.assignedTo ≠ none := by
        rcases hSnap i snap hphase with he | he
        · exact absurd (he ▸ hinit) hsa
        · rw [he] at hsa; exact hsa
      rw [hstep]
      dsimp only [ClaimInv]
      refine ⟨fun hnone => absurd hnone hitem_assigned, ?_, ?_, ?_⟩
      · intro w hw
        obtain ⟨hst, i0, hw0, hrev0, huniq⟩ := hAssigned w hw
        have hi0ne : i0 ≠ i := by
          intro hEq; rw [hEq] at hw0; simp [wroteProc, hphase] at hw0
        refine ⟨hst, i0, by rw [Function.update_noteq hi0ne]; exact hw0,
          by rw [Function.update_noteq hi0ne]; exact hrev0, ?_⟩
        intro j hj
        by_cases hji : j = i
        · subst hji; rw [Function.update_same] at hj; simp [wroteProc] at hj
        · rw [Function.update_noteq hji] at hj; exact huniq j hj
      · intro j snap2 hj
        by_cases hji : j = i
        · subst hji; rw [Function.update_same] at hj; simp at hj
        · rw [Function.update_noteq hji] at hj; exact hSnap j snap2 hj
      · intro j r hj
        by_cases hji : j = i
        · subst hji; rw [Function.update_same] at hj
          simp at hj
          subst hj
          left; rfl
        · rw [Function.update_noteq hji] at hj; exact hResp j r hj
  · -- a finished caller: no-op
    have hstep : sysStep s i = s := by
      simp [sysStep, procStep, hphase, Function.update_eq_self]
    rw [hstep]
    exact ⟨hFree, hAssigned, hSnap, hResp⟩

lemma claimInv_run {n : Nat} {init : ReviewItemState} (hinit : init.assignedTo = none) :
    ∀ (sched : List (Fin n)) (s : ClaimSystem n),
      ClaimInv init s → ClaimInv init (runClaims s sched)
  | [], _, hs => hs
  | i :: rest, s, hs =>
    claimInv_run hinit rest (sysStep s i) (claimInv_step hinit hs i)

/-- C2, counterexample: two reviewers, sequential interleaving (alice's two
steps, then bob's two steps) of the concurrent claim calls on a PENDING
unassigned item.  Alice's conditional write succeeds; bob's call returns
HTTP 200 (success, showing the item assigned to alice) — bob does not
receive an AlreadyAssigned/ConcurrencyError, contradicting the claim that the
N-1 losing calls receive such an error. -/
theorem C2_counterexample :
    responseOf ((runClaims Examples.raceInit [0, 0, 1, 1]).procs 1) =
      some ⟨200, some "alice", false⟩ ∧
    responseOf ((runClaims Examples.raceInit [0, 0, 1, 1]).procs 0) =
      some ⟨200, some "alice", true⟩ ∧
    (runClaims Examples.raceInit [0, 0, 1, 1]).item =
      ⟨"in_progress", some "alice"⟩ := by
  decide

/-- C2, amended: for every interleaving of N concurrent claim calls on a
PENDING unassigned item, once all calls have completed exactly one caller's
conditional write has succeeded — that caller holds the assignment and the
item is in_progress — and every other call has received either HTTP 200
(with the winner as assignee) or HTTP 500 (failed conditional write), never
an AlreadyAssigned/ConcurrencyError. -/
theorem C2_claim_exclusivity_amended {n : Nat} (reviewers : Fin n → String)
    (sched : List (Fin n)) (hn : 0 < n)
    (hfin : ∀ i, finishedProc
      ((runClaims (initialSystem pendingUnassigned reviewers) sched).procs i) = true) :
    (∃ i, wroteProc
        ((runClaims (initialSystem pendingUnassigned reviewers) sched).procs i) = true ∧
      (runClaims (initialSystem pendingUnassigned reviewers) sched).item =
        ⟨"in_progress",
         some (((runClaims (initialSystem pendingUnassigned reviewers) sched).procs i).reviewer)⟩ ∧
      ∀ j, wroteProc
        ((runClaims (initialSystem pendingUnassigned reviewers) sched).procs j) = true → j = i) ∧
    (∀ i r, responseOf
        ((runClaims (initialSystem pendingUnassigned reviewers) sched).procs i) = some r →
      r.statusCode = 200 ∨ r.statusCode = 500) := by
  obtain ⟨hFree, hAssigned, hSnap, hResp⟩ :=
    @claimInv_run n pendingUnassigned rfl sched
      (initialSystem pendingUnassigned reviewers)
      (claimInv_init pendingUnassigned reviewers rfl)
  constructor
  · rcases hopt : (runClaims (initialSystem pendingUnassigned reviewers) sched).item.assignedTo
      with _ | w
    · exfalso
      obtain ⟨-, hall⟩ := hFree hopt
      have hf := hfin ⟨0, hn⟩
      rcases hall ⟨0, hn⟩ with hr | hg
      · simp [finishedProc, hr] at hf
      · simp [finishedProc, hg] at hf
    · obtain ⟨hst, i0, hw0, hrev0, huniq⟩ := hAssigned w hopt
      refine ⟨i0, hw0, ?_, huniq⟩
      rw [show (runClaims (initialSystem pendingUnassigned reviewers) sched).item =
          (⟨(runClaims (initialSystem pendingUnassigned reviewers) sched).item.status,
            (runClaims (initialSystem pendingUnassigned reviewers) sched).item.assignedTo⟩ :
            ReviewItemState) from rfl, hst, hopt, hrev0]
  · intro i r hre
    exact hResp i r (responseOf_some hre)

/-- C2, witness: the amended exclusivity theorem applied to a concrete
two-caller race with the alternating schedule alice-read, bob-read,
alice-write, bob-write, in which bob's conditional write loses. -/
theorem C2_witness :
    (0 < 2 ∧ ∀ i : Fin 2, finishedProc
      ((runClaims (initialSystem pendingUnassigned Examples.twoReviewers)
        [0, 1, 0, 1]).procs i) = true) ∧
    ((∃ i, wroteProc
        ((runClaims (initialSystem pendingUnassigned Examples.twoReviewers)
          [0, 1, 0, 1]).procs i) = true ∧
      (runClaims (initialSystem pendingUnassigned Examples.twoReviewers)
          [0, 1, 0, 1]).item =
        ⟨"in_progress",
         some (((runClaims (initialSystem pendingUnassigned Examples.twoReviewers)
           [0, 1, 0, 1]).procs i).reviewer)⟩ ∧
      ∀ j, wroteProc
        ((runClaims (initialSystem pendingUnassigned Examples.twoReviewers)
          [0, 1, 0, 1]).procs j) = true → j = i) ∧
    (∀ i r, responseOf
        ((runClaims (initialSystem pendingUnassigned Examples.twoReviewers)
          [0, 1, 0, 1]).procs i) = some r →
      r.statusCode = 200 ∨ r.statusCode = 500)) :=
  ⟨⟨by decide, by decide⟩,
   C2_claim_exclusivity_amended Examples.twoReviewers [0, 1, 0, 1]
     (by decide) (by decide)⟩

end ClaimRace

end IDV
